import Mathlib

/-!
Verification of the cloud_web RPC core: a shallow embedding of the
circuit breaker (`breaker` package), the binary frame codec
(`web/rpc/tcp.go`), the worker pool (`web/pool`), and the server's
dispatch logic, together with theorems settling the specification's
claims about them.

Conventions of the embedding:
* Go machine integers become `Nat`/`Int` with explicit `% 2^w` where the
  source can overflow (`uint32` counters, header fields).
* `time.Time` becomes `Option Nat` (`none` = Go's zero time value),
  `time.Duration` a `Nat`.
* Stateful methods become state-passing functions; a Go `panic` is the
  `.panic` constructor of an outcome type.
* Third-party library calls (gob / protobuf / gzip from the Go standard
  library, which are outside this repository) are parameters of the
  functions that use them; everything written in the repository itself
  is translated concretely.
-/

namespace CloudWeb

/-! ## Circuit breaker (`breaker` package, unnamed part 008) -/

namespace Breaker

/-- Go outcome of a statement sequence that can `panic`. -/
inductive GoRes (α : Type) : Type
  | ok (a : α) : GoRes α
  | panic : GoRes α
  deriving Repr, DecidableEq

/-- Model of `State` with `StateClosed`, `StateHalfOpen`, `StateOpen`
(`open` is reserved in Lean, hence `opened`). -/
inductive BState : Type
  | closed
  | halfOpen
  | opened
  deriving Repr, DecidableEq

/-- Model of `Counts`: five `uint32` counters. -/
structure Counts where
  requests : Nat
  totalSuccesses : Nat
  totalFailures : Nat
  consecutiveSuccesses : Nat
  consecutiveFailures : Nat
  deriving Repr, DecidableEq

/-- Model of `Counts.OnRequest`: `c.Requests++` (uint32 arithmetic). -/
def Counts.onRequest (c : Counts) : Counts :=
  { c with requests := (c.requests + 1) % 2 ^ 32 }

/-- Model of `Counts.OnSuccess`. -/
def Counts.onSuccess (c : Counts) : Counts :=
  { c with
    totalSuccesses := (c.totalSuccesses + 1) % 2 ^ 32
    consecutiveSuccesses := (c.consecutiveSuccesses + 1) % 2 ^ 32
    consecutiveFailures := 0 }

/-- Model of `Counts.OnFail`. -/
def Counts.onFail (c : Counts) : Counts :=
  { c with
    totalFailures := (c.totalFailures + 1) % 2 ^ 32
    consecutiveFailures := (c.consecutiveFailures + 1) % 2 ^ 32
    consecutiveSuccesses := 0 }

/-- Model of `Counts.Clear`. -/
def Counts.clear : Counts :=
  { requests := 0, totalSuccesses := 0, totalFailures := 0
    consecutiveSuccesses := 0, consecutiveFailures := 0 }

/-- The mutable part of `CircuitBreaker` plus its numeric settings.
The function-valued settings (`readyToTrip`, `isSuccessful`,
`onStateChange`, `fallback`) are passed as parameters to the operations
that consult them, so that breaker states stay decidably comparable. -/
structure CircuitBreaker where
  maxRequests : Nat
  interval : Nat
  timeout : Nat
  state : BState
  generation : Nat
  counts : Counts
  /-- Model of `expiry`; `none` is Go's zero `time.Time`. -/
  expiry : Option Nat
  deriving Repr, DecidableEq

/-- Model of `time.Time.IsZero` on our `Option Nat` model. -/
def timeIsZero : Option Nat → Bool
  | none => true
  | some _ => false

/-- Model of `t.Before(now)`; the zero time is before any positive instant. -/
def timeBefore : Option Nat → Nat → Bool
  | none, now => decide (0 < now)
  | some e, now => decide (e < now)

/-- Model of `CircuitBreaker.NewGeneration` at instant `now`: bump the
generation, clear the counts, recompute `expiry` from the state. -/
def newGeneration (cb : CircuitBreaker) (now : Nat) : CircuitBreaker :=
  let cb := { cb with generation := cb.generation + 1, counts := Counts.clear }
  match cb.state with
  | .closed =>
      if cb.interval = 0 then { cb with expiry := none }
      else { cb with expiry := some (now + cb.interval) }
  | .opened => { cb with expiry := some (now + cb.timeout) }
  | .halfOpen => { cb with expiry := none }

/-- Model of `CircuitBreaker.SetState` (the `onStateChange` callback has no
effect on the breaker's own state and is dropped). -/
def setState (cb : CircuitBreaker) (target : BState) (now : Nat) : CircuitBreaker :=
  if cb.state = target then cb
  else newGeneration { cb with state := target } now

/-- Default `ReadyToTrip`: more than 5 consecutive failures. -/
def readyToTripDefault (c : Counts) : Bool :=
  decide (c.consecutiveFailures > 5)

/-- Model of `NewCircuitBreaker` restricted to its numeric settings, called at
instant `now`: zero values are replaced by the defaults
(`maxRequests` 1, `interval` 0, `timeout` 20 time units standing for 20
seconds) and an initial `NewGeneration` runs on the zero-valued
(Closed) breaker. -/
def newCircuitBreaker (stMaxRequests stInterval stTimeout : Nat) (now : Nat) : CircuitBreaker :=
  let cb : CircuitBreaker :=
    { maxRequests := if stMaxRequests = 0 then 1 else stMaxRequests
      interval := if stInterval = 0 then 0 else stInterval
      timeout := if stTimeout = 0 then 20 else stTimeout
      state := .closed
      generation := 0
      counts := Counts.clear
      expiry := none }
  newGeneration cb now

/-- Model of `CircuitBreaker.currentState`: in Closed, roll the generation when
the interval expired; in Open, move to HalfOpen when the timeout
expired; any other state hits the `default:` branch, which is
`panic("unhandled default case")` in the source. Returns the possibly
updated breaker together with `cb.state, cb.generation`. -/
def currentState (cb : CircuitBreaker) (now : Nat) : GoRes (CircuitBreaker × BState × Nat) :=
  match cb.state with
  | .closed =>
      let cb :=
        if ¬ timeIsZero cb.expiry ∧ timeBefore cb.expiry now then newGeneration cb now
        else cb
      .ok (cb, cb.state, cb.generation)
  | .opened =>
      let cb :=
        if timeBefore cb.expiry now then setState cb .halfOpen now
        else cb
      .ok (cb, cb.state, cb.generation)
  | .halfOpen => .panic

/-- The two rejection errors produced by `beforeRequest`. -/
inductive BreakerErr : Type
  | openState
  | tooManyRequests
  deriving Repr, DecidableEq

/-- Model of `CircuitBreaker.beforeRequest`: consult the state; reject when Open,
or when HalfOpen with `counts.Requests > maxRequests`. -/
def beforeRequest (cb : CircuitBreaker) (now : Nat) :
    GoRes (CircuitBreaker × Option BreakerErr × Nat) :=
  match currentState cb now with
  | .panic => .panic
  | .ok (cb, state, generation) =>
      if state = .opened then .ok (cb, some .openState, generation)
      else if state = .halfOpen ∧ cb.counts.requests > cb.maxRequests then
        .ok (cb, some .tooManyRequests, generation)
      else .ok (cb, none, generation)

/-- Model of `CircuitBreaker.OnSuccess` (dispatching on the state argument,
`default:` panics). -/
def onSuccessCB (cb : CircuitBreaker) (state : BState) (now : Nat) : GoRes CircuitBreaker :=
  match state with
  | .closed => .ok { cb with counts := cb.counts.onSuccess }
  | .halfOpen =>
      let cb := { cb with counts := cb.counts.onSuccess }
      if cb.counts.consecutiveSuccesses > cb.maxRequests then
        .ok (setState cb .closed now)
      else .ok cb
  | .opened => .panic

/-- Model of `CircuitBreaker.OnFail`, parameters as in the source plus the
`readyToTrip` predicate of the breaker's settings. -/
def onFailCB (readyToTrip : Counts → Bool) (cb : CircuitBreaker) (state : BState)
    (now : Nat) : GoRes CircuitBreaker :=
  match state with
  | .closed =>
      let cb := { cb with counts := cb.counts.onFail }
      if readyToTrip cb.counts then .ok (setState cb .opened now)
      else .ok cb
  | .halfOpen => .ok (setState cb .opened now)
  | .opened => .panic

/-- Model of `CircuitBreaker.afterRequest`: discard the outcome when the
generation moved on, otherwise account it. -/
def afterRequest (readyToTrip : Counts → Bool) (cb : CircuitBreaker) (before : Nat)
    (success : Bool) (now : Nat) : GoRes CircuitBreaker :=
  match currentState cb now with
  | .panic => .panic
  | .ok (cb, state, generation) =>
      if generation ≠ before then .ok cb
      else if success then onSuccessCB cb state now
      else onFailCB readyToTrip cb state now

/-- What `Execute` hands back to its caller. -/
inductive ExecResult : Type
  | fallback (e : BreakerErr)
  | errResult (e : BreakerErr)
  | callResult (success : Bool)
  deriving Repr, DecidableEq

/-- Model of `CircuitBreaker.Execute`. `success` abstracts
`cb.isSuccessful(err)` for the invoked call, `hasFallback` whether a
fallback is configured, `now₁` and `now₂` the instants of the pre-call
and post-call bookkeeping. `interfere` is the state mutation performed by other
goroutines while `req()` runs (`id` when the breaker is quiescent);
the source takes no lock in `Execute`, so such mutations land exactly
between `beforeRequest` and `cb.counts.OnRequest()`. Note that
`OnRequest` runs unconditionally, before `afterRequest`'s generation
check. -/
def execute (readyToTrip : Counts → Bool) (hasFallback : Bool) (cb : CircuitBreaker)
    (now₁ : Nat) (interfere : CircuitBreaker → CircuitBreaker) (success : Bool)
    (now₂ : Nat) : GoRes (CircuitBreaker × ExecResult) :=
  match beforeRequest cb now₁ with
  | .panic => .panic
  | .ok (cb, some e, _) =>
      .ok (cb, if hasFallback then .fallback e else .errResult e)
  | .ok (cb, none, generation) =>
      let cb := interfere cb
      let cb := { cb with counts := cb.counts.onRequest }
      match afterRequest readyToTrip cb generation success now₂ with
      | .panic => .panic
      | .ok cb => .ok (cb, .callResult success)

/-- Iterate failing `Execute` calls (quiescent breaker, no fallback) at
instants `t, t+1, …`. -/
def runFails (readyToTrip : Counts → Bool) (cb : CircuitBreaker) (n : Nat) (t : Nat) :
    GoRes CircuitBreaker :=
  match n with
  | 0 => .ok cb
  | n + 1 =>
      match execute readyToTrip false cb t id false t with
      | .panic => .panic
      | .ok (cb, _) => runFails readyToTrip cb n (t + 1)

end Breaker

/-! ## Frame codec (`web/rpc/tcp.go`) -/

namespace Rpc

/-- Outcome of a codec operation: success, a Go `error`, or a `panic`. -/
inductive Res (α : Type) : Type
  | ok (a : α) : Res α
  | err (msg : String) : Res α
  | panic : Res α
  deriving Repr, DecidableEq

/-- Model of `MagicNumber byte = 0x1d`. -/
def magicNumber : Nat := 0x1d

/-- Model of `Version = 0x01`. -/
def version : Nat := 0x01

/-- Model of `msgRequest` tag. -/
def msgRequest : Nat := 0

/-- Model of `msgResponse` tag. -/
def msgResponse : Nat := 1

/-- A dynamically typed Go value (`any`), restricted to the scalar
payloads the RPC examples exchange. -/
inductive GoAny : Type
  | str (s : String)
  | num (n : Int)
  | boolean (b : Bool)
  | nil
  deriving Repr, DecidableEq

/-- Model of `Header` of a frame. `FullLength` is `int32` in the source, hence
`Int` here; the one-byte tags stay `Nat`. -/
structure Header where
  magicNumber : Nat
  version : Nat
  fullLength : Int
  messageType : Nat
  compressType : Nat
  serializeType : Nat
  requestId : Nat
  deriving Repr, DecidableEq

/-- Model of `MsRpcRequest`. -/
structure MsRpcRequest where
  requestId : Nat
  serviceName : String
  methodName : String
  args : List GoAny
  deriving Repr, DecidableEq

/-- Model of `MsRpcResponse`. -/
structure MsRpcResponse where
  requestId : Nat
  code : Int
  msg : String
  compressType : Nat
  serializeType : Nat
  data : Option GoAny
  deriving Repr, DecidableEq

/-- The protobuf-generated `Request` (its `Args`, a list of third-party
`structpb.Value`s, is outside the repository and abstracted away). -/
structure PbRequest where
  requestId : Nat
  serviceName : String
  methodName : String
  deriving Repr, DecidableEq

/-- The protobuf-generated `Response` (its `Data`, a third-party
`structpb.Value`, is abstracted away). -/
structure PbResponse where
  requestId : Nat
  code : Int
  msg : String
  deriving Repr, DecidableEq

/-- The typed payload `decodeFrame` stores in `MsRpcMessage.Data`. -/
inductive MsgData : Type
  | req (r : MsRpcRequest)
  | rsp (r : MsRpcResponse)
  | pbReq (r : PbRequest)
  | pbRsp (r : PbResponse)
  deriving Repr, DecidableEq

/-- Model of `MsRpcMessage`. -/
structure MsRpcMessage where
  header : Header
  data : MsgData
  deriving Repr, DecidableEq

/-- Model of `b.set i v`, i.e. `b[i] = v` on a byte slice. -/
def putByte (l : List Nat) (i v : Nat) : List Nat := l.set i v

/-- Model of `binary.BigEndian.PutUint32(b[i:i+4], uint32 v)`: four byte stores,
most significant first. -/
def putU32be (l : List Nat) (i v : Nat) : List Nat :=
  let w := v % 2 ^ 32
  ((((l.set i (w / 2 ^ 24 % 256)).set (i + 1) (w / 2 ^ 16 % 256)).set
        (i + 2) (w / 2 ^ 8 % 256)).set (i + 3) (w % 256))

/-- Model of `binary.BigEndian.PutUint64(b[i:i+8], uint64 v)`. -/
def putU64be (l : List Nat) (i v : Nat) : List Nat :=
  let w := v % 2 ^ 64
  ((((((((l.set i (w / 2 ^ 56 % 256)).set (i + 1) (w / 2 ^ 48 % 256)).set
        (i + 2) (w / 2 ^ 40 % 256)).set (i + 3) (w / 2 ^ 32 % 256)).set
        (i + 4) (w / 2 ^ 24 % 256)).set (i + 5) (w / 2 ^ 16 % 256)).set
        (i + 6) (w / 2 ^ 8 % 256)).set (i + 7) (w % 256))

/-- Model of `binary.BigEndian.Uint32` of four bytes. -/
def beU32 (b0 b1 b2 b3 : Nat) : Nat :=
  ((b0 * 256 + b1) * 256 + b2) * 256 + b3

/-- Reinterpret a `uint32` bit pattern as Go's `int32`. -/
def toInt32 (v : Nat) : Int :=
  if v < 2 ^ 31 then (v : Int) else (v : Int) - 2 ^ 32

/-- Specification-side big-endian bytes of a 32-bit value (used to
state what the encoder emits). -/
def u32be (v : Nat) : List Nat :=
  [v / 2 ^ 24 % 256, v / 2 ^ 16 % 256, v / 2 ^ 8 % 256, v % 256]

/-- Specification-side big-endian bytes of a 64-bit value. -/
def u64be (v : Nat) : List Nat :=
  [v / 2 ^ 56 % 256, v / 2 ^ 48 % 256, v / 2 ^ 40 % 256, v / 2 ^ 32 % 256,
   v / 2 ^ 24 % 256, v / 2 ^ 16 % 256, v / 2 ^ 8 % 256, v % 256]

/-- Model of `MsTcpClient.Invoke`'s encode half: build the 17-byte header
(offsets 0, 1, 6, 7, 8 and the 8-byte request id at offset 9),
serialize then compress the request into the body, patch the 4-byte
full length at offset 2, and emit header then body. `ser` and `comp`
are the plugin functions `loadSerializer`/`loadCompress` returned
(gob or protobuf marshalling and gzip, all Go standard library /
third-party code); `none` is their error return, which `Invoke`
propagates without writing. -/
def invokeEncode (ser : MsRpcRequest → Option (List Nat))
    (comp : List Nat → Option (List Nat)) (compressType serializeType : Nat)
    (req : MsRpcRequest) : Option (List Nat) :=
  let headers := List.replicate 17 0
  let headers := putByte headers 0 magicNumber
  let headers := putByte headers 1 version
  let headers := putByte headers 6 msgRequest
  let headers := putByte headers 7 compressType
  let headers := putByte headers 8 serializeType
  let headers := putU64be headers 9 req.requestId
  match ser req with
  | none => none
  | some sbody =>
      match comp sbody with
      | none => none
      | some body =>
          let fullLen := 17 + body.length
          let headers := putU32be headers 2 fullLen
          some (headers ++ body)

/-- Model of `MsTcpConn.Send`'s encode half, identical framing with
`msgResponse` at offset 6 and the response's own tags and request id;
`ser` covers both of `Send`'s branches (gob on the response itself, or
protobuf on the converted `Response`). -/
def sendEncode (ser : MsRpcResponse → Option (List Nat))
    (comp : List Nat → Option (List Nat)) (rsp : MsRpcResponse) :
    Option (List Nat) :=
  let headers := List.replicate 17 0
  let headers := putByte headers 0 magicNumber
  let headers := putByte headers 1 version
  let headers := putByte headers 6 msgResponse
  let headers := putByte headers 7 rsp.compressType
  let headers := putByte headers 8 rsp.serializeType
  let headers := putU64be headers 9 rsp.requestId
  match ser rsp with
  | none => none
  | some sbody =>
      match comp sbody with
      | none => none
      | some body =>
          let fullLen := 17 + body.length
          let headers := putU32be headers 2 fullLen
          some (headers ++ body)

/-- Behaviour of the Go standard library's gzip reader on a given
input: `none` — `gzip.NewReader` fails (invalid gzip stream);
`some none` — the reader is created but reading fails;
`some (some out)` — decompression yields `out`. -/
structure GzipModel where
  newReader : List Nat → Option (Option (List Nat))

/-- Model of `GzipCompress.UnCompress`: `defer reader.Close()` is registered
before the `gzip.NewReader` error is checked, so on the error path the
deferred call runs `Close` on a nil `*gzip.Reader` while the function
returns — a nil-pointer dereference, i.e. a panic, instead of the
written `return nil, err`. -/
def gzUnCompress (g : GzipModel) (data : List Nat) : Res (List Nat) :=
  match g.newReader data with
  | none => .panic
  | some none => .err "gzip read error"
  | some (some out) => .ok out

/-- The standard-library codec behaviour `decodeFrame` dispatches to:
the gzip reader plus the four deserialization targets
(`MsRpcRequest`/`MsRpcResponse` via gob, `Request`/`Response` via
protobuf); `none` is a deserialization error. -/
structure CodecEnv where
  gzip : GzipModel
  gobDeserReq : List Nat → Option MsRpcRequest
  gobDeserRsp : List Nat → Option MsRpcResponse
  pbDeserReq : List Nat → Option PbRequest
  pbDeserRsp : List Nat → Option PbResponse

/-- Model of `loadCompress`: tag 0 is gzip, every other tag yields nil. -/
def loadCompressEnv (env : CodecEnv) (compressType : Nat) :
    Option (List Nat → Res (List Nat)) :=
  if compressType = 0 then some (gzUnCompress env.gzip) else none

/-- Model of `decodeFrame(conn)`: read 17 header bytes (`io.ReadFull`), reject a
bad magic byte, parse the header — note the source parses the request
id with `binary.BigEndian.Uint32(headers[9:])`, i.e. only bytes 9–12 —
read `FullLength - 17` body bytes, then decompress and deserialize by
the header tags. A negative body length makes `make([]byte, bodyLen)`
panic. The stream is the sequence of bytes the connection delivers;
too few bytes is `io.ReadFull`'s error return. -/
def decodeFrame (env : CodecEnv) (stream : List Nat) : Res MsRpcMessage :=
  match stream with
  | mn :: vs :: l0 :: l1 :: l2 :: l3 :: mt :: ct :: st ::
      r0 :: r1 :: r2 :: r3 :: _r4 :: _r5 :: _r6 :: _r7 :: rest =>
      if mn ≠ magicNumber then .err "magic number error"
      else
        let fullLength : Int := toInt32 (beU32 l0 l1 l2 l3)
        let requestId : Nat := beU32 r0 r1 r2 r3
        let header : Header :=
          { magicNumber := mn, version := vs, fullLength := fullLength
            messageType := mt, compressType := ct, serializeType := st
            requestId := requestId }
        let bodyLen : Int := fullLength - 17
        if bodyLen < 0 then .panic
        else if rest.length < bodyLen.toNat then .err "read body: unexpected EOF"
        else
          let body := rest.take bodyLen.toNat
          match loadCompressEnv env ct with
          | none => .err "no compress"
          | some uncomp =>
              match uncomp body with
              | .panic => .panic
              | .err e => .err e
              | .ok body =>
                  if ¬ (st = 0 ∨ st = 1) then .err "no serializer"
                  else if mt = msgRequest then
                    if st = 1 then
                      match env.pbDeserReq body with
                      | none => .err "deserialize error"
                      | some r => .ok { header := header, data := .pbReq r }
                    else
                      match env.gobDeserReq body with
                      | none => .err "deserialize error"
                      | some r => .ok { header := header, data := .req r }
                  else if mt = msgResponse then
                    if st = 1 then
                      match env.pbDeserRsp body with
                      | none => .err "deserialize error"
                      | some r => .ok { header := header, data := .pbRsp r }
                    else
                      match env.gobDeserRsp body with
                      | none => .err "deserialize error"
                      | some r => .ok { header := header, data := .rsp r }
                  else .err "no message type"
  | _ => .err "read header: unexpected EOF"

/-- Specification-side frame builder used to state properties about
`decodeFrame` on well-formed inputs. -/
def frameBytes (msgType compressType serializeType reqId : Nat)
    (body : List Nat) : List Nat :=
  [magicNumber, version] ++ u32be (17 + body.length) ++
    [msgType, compressType, serializeType] ++ u64be reqId ++ body

/-- A serializer that succeeds with the one-byte body `[7]`
(any successful plugin will do for evaluating the codec). -/
def serConst7 : MsRpcRequest → Option (List Nat) := fun _ => some [7]

/-- The identity compressor: a compressor/uncompressor pair that
round-trips perfectly. -/
def compIdent : List Nat → Option (List Nat) := fun b => some b

/-- A concrete request whose id is 1. -/
def req1 : MsRpcRequest :=
  { requestId := 1, serviceName := "goods", methodName := "Find", args := [] }

/-- A codec environment that exactly inverts `serConst7` and
`compIdent`: gzip decompression is the identity and gob
deserialization of `[7]` yields `req1` back. -/
def envRoundTrip : CodecEnv :=
  { gzip := { newReader := fun b => some (some b) }
    gobDeserReq := fun b => if b = [7] then some req1 else none
    gobDeserRsp := fun _ => none
    pbDeserReq := fun _ => none
    pbDeserRsp := fun _ => none }

/-! ### Server dispatch (`MsTcpServer.readHandle`, `web/rpc/tcp.go`) -/

/-- A registered service: reflective method lookup
(`reflect.ValueOf(service).MethodByName`) becomes a partial map from
method names to functions from the argument list to
`(results[0], trailing error)`. -/
structure Service where
  methods : String → Option (List GoAny → GoAny × Option String)

/-- The dispatch stage of `MsTcpServer.readHandle` on a successfully
decoded request (gob branch; the protobuf branch performs the same
lookups with the same responses): look the service up in
`serviceMap`, then the method, invoke it, and build the response. The
not-found responses are fresh zero-valued `MsRpcResponse` records with
only `Code` and `Msg` set, exactly as in the source. The returned
boolean records whether a service method was invoked
(`method.Call`). -/
def readHandleDispatch (services : String → Option Service) (hdr : Header)
    (req : MsRpcRequest) : MsRpcResponse × Bool :=
  let rsp : MsRpcResponse :=
    { requestId := req.requestId, code := 0, msg := ""
      compressType := hdr.compressType, serializeType := hdr.serializeType
      data := none }
  match services req.serviceName with
  | none =>
      ({ requestId := 0, code := 500, msg := "no service found"
         compressType := 0, serializeType := 0, data := none }, false)
  | some service =>
      match service.methods req.methodName with
      | none =>
          ({ requestId := 0, code := 500, msg := "no service method found"
             compressType := 0, serializeType := 0, data := none }, false)
      | some method =>
          let result := method req.args
          match result.2 with
          | some e => ({ rsp with code := 500, msg := e }, true)
          | none => ({ rsp with code := 200, data := some result.1 }, true)

end Rpc

/-! ## Worker pool (`web/pool/pool.go` and the `Worker` file) -/

namespace Pool

/-- The pool's shared state: `cap` and `running` are `int32` (`Int`
here; the running counter is mutated through `atomic.AddInt32`),
`idle` the length of the `workers` slice of idle workers,
`releaseLen` the occupancy of the one-slot `release` channel, and
`onceDone` whether `sync.Once` has fired. -/
structure PoolState where
  cap : Int
  running : Int
  idle : Nat
  releaseLen : Nat
  onceDone : Bool
  deriving Repr, DecidableEq

/-- Model of `ErrorHasClosed`. -/
def errorHasClosed : String := "pool has bean released!!"

/-- Model of `NewTimePool`: validate `cap` and `expire`, start from a fresh
state (the expiry sweeper goroutine only shrinks the idle list and is
irrelevant to the claims under proof). -/
def newTimePool (cap expire : Int) : Except String PoolState :=
  if cap ≤ 0 then .error "pool cap can not <= 0"
  else if expire ≤ 0 then .error "pool expire can not <= 0"
  else .ok { cap := cap, running := 0, idle := 0, releaseLen := 0, onceDone := false }

/-- Model of `NewPool`: `NewTimePool` with the default expiry of 3 seconds. -/
def newPool (cap : Int) : Except String PoolState := newTimePool cap 3

/-- Model of `Pool.incRunning` (`atomic.AddInt32(&p.running, 1)`). -/
def incRunning (p : PoolState) : PoolState := { p with running := p.running + 1 }

/-- Model of `Pool.decRunning`: runs when a worker goroutine exits
(`Worker.running`'s deferred block). -/
def decRunning (p : PoolState) : PoolState := { p with running := p.running - 1 }

/-- How `Pool.GetWorker` obtained its worker. -/
inductive Got : Type
  | idleWorker
  | newWorker
  | blocked
  deriving Repr, DecidableEq

/-- Model of `Pool.GetWorker`: pop an idle worker if any; else, if
`running < cap`, take a cached or fresh worker and `w.run()` — which
calls `incRunning` and starts the goroutine; else park in
`waitIdleWorker` (`blocked`: the further blocking behaviour needs
another goroutine to act and is not modelled). -/
def getWorker (p : PoolState) : Got × PoolState :=
  if p.idle > 0 then (.idleWorker, { p with idle := p.idle - 1 })
  else if p.running < p.cap then (.newWorker, incRunning p)
  else (.blocked, p)

/-- Result of `Pool.Submit`. -/
inductive SubmitRes : Type
  | ok
  | closedErr
  | blocked
  deriving Repr, DecidableEq

/-- Model of `Pool.Submit`: fail with `ErrorHasClosed` when the release channel
is non-empty (leaving the pool untouched, the task never delivered);
otherwise get a worker, hand it the task, and call
`w.pool.incRunning()` — on top of the `incRunning` that `w.run()`
already performed when the worker is newly started. -/
def submit (p : PoolState) : SubmitRes × PoolState :=
  if p.releaseLen > 0 then (.closedErr, p)
  else
    match getWorker p with
    | (.blocked, p') => (.blocked, p')
    | (_, p') => (.ok, incRunning p')

/-- Model of `Pool.PutWorker`: a worker that finished its task stamps
`lastTime` and re-enters the idle slice; the running counter is not
touched. -/
def putWorker (p : PoolState) : PoolState := { p with idle := p.idle + 1 }

/-- Model of `Pool.Release`: under `sync.Once`, nil out every idle worker and
the workers slice and send the signal into the one-slot `release`
channel; a second call does nothing. -/
def release (p : PoolState) : PoolState :=
  if p.onceDone then p
  else { p with idle := 0, releaseLen := 1, onceDone := true }

/-- Model of `Pool.Restart`: drain the release channel (without resetting the
`sync.Once`). -/
def restart (p : PoolState) : PoolState :=
  if p.releaseLen ≤ 0 then p else { p with releaseLen := p.releaseLen - 1 }

/-- Model of `Pool.IsClosed`. -/
def isClosed (p : PoolState) : Bool := decide (p.releaseLen > 0)

/-- Model of `Pool.Free`: `int(p.cap - p.running)`. -/
def free (p : PoolState) : Int := p.cap - p.running

/-- Model of `Pool.Running`. -/
def runningCount (p : PoolState) : Int := p.running

end Pool

end CloudWeb

namespace CloudWeb

/-! ## Theorems settling the claims -/

namespace Breaker

/-- C3: from a default breaker (trip threshold `N = 5`, `maxRequests`
1, timeout 20), five consecutive failed `Execute` calls leave the
breaker Closed and the sixth (the `N+1`-st) trips it Closed→Open; after
the timeout has elapsed the next consultation of the state reads
HalfOpen; but the claim's final leg fails: the first successful
`Execute` issued once the timeout has elapsed panics inside
`currentState` (its `default:` branch is `panic("unhandled default
case")` and HalfOpen has no case), so no number of successes while
HalfOpen can ever transition the breaker to Closed through `Execute`. -/
theorem c3_breaker_lifecycle :
    runFails readyToTripDefault (newCircuitBreaker 0 0 0 0) 5 1 =
      .ok { maxRequests := 1, interval := 0, timeout := 20, state := .closed
            generation := 1
            counts := { requests := 5, totalSuccesses := 0, totalFailures := 5
                        consecutiveSuccesses := 0, consecutiveFailures := 5 }
            expiry := none } ∧
    runFails readyToTripDefault (newCircuitBreaker 0 0 0 0) 6 1 =
      .ok { maxRequests := 1, interval := 0, timeout := 20, state := .opened
            generation := 2, counts := Counts.clear, expiry := some 26 } ∧
    currentState
        { maxRequests := 1, interval := 0, timeout := 20, state := .opened
          generation := 2, counts := Counts.clear, expiry := some 26 } 27 =
      .ok ({ maxRequests := 1, interval := 0, timeout := 20, state := .halfOpen
             generation := 3, counts := Counts.clear, expiry := none },
           .halfOpen, 3) ∧
    execute readyToTripDefault false
        { maxRequests := 1, interval := 0, timeout := 20, state := .opened
          generation := 2, counts := Counts.clear, expiry := some 26 }
        27 id true 28 = .panic := by
  refine ⟨?_, ?_, ?_, ?_⟩ <;> rfl

/-- C4 counterexample: a call through a default breaker (generation
snapshot 1) during which the breaker is tripped Closed→Open — so the
generation at completion is 2 and the new generation starts from
cleared counts — completes with the new generation's
`Counts.Requests = 1`: the unconditional `cb.counts.OnRequest()` in
`Execute` runs after the trip and before `afterRequest`'s generation
check, so the stale call does modify the new generation's Counts. -/
theorem c4_stale_call_modifies_requests :
    (newCircuitBreaker 0 0 0 0).generation = 1 ∧
    setState (newCircuitBreaker 0 0 0 0) .opened 1 =
      { maxRequests := 1, interval := 0, timeout := 20, state := .opened
        generation := 2, counts := Counts.clear, expiry := some 21 } ∧
    execute readyToTripDefault false (newCircuitBreaker 0 0 0 0) 1
        (fun c => setState c .opened 1) true 2 =
      .ok ({ maxRequests := 1, interval := 0, timeout := 20, state := .opened
             generation := 2, counts := { Counts.clear with requests := 1 }
             expiry := some 21 },
           .callResult true) := by
  refine ⟨rfl, rfl, rfl⟩

/-- C4 amended: a call whose generation is stale at completion has its
success or failure outcome discarded — `afterRequest` leaves the
breaker untouched, so `TotalSuccesses`, `TotalFailures`,
`ConsecutiveSuccesses` and `ConsecutiveFailures` of the new generation
stay at their cleared values — but `Execute`'s unconditional
`OnRequest` still increments the current generation's `Requests`, so
the new generation's Counts are not left entirely unchanged: exactly
the `Requests` field gains 1. Stated for a Closed breaker with no
interval rollover pending that another goroutine trips to Open while
the call runs, the trip's timeout not yet elapsed at completion. -/
theorem c4_stale_call_accounting (readyToTrip : Counts → Bool) (hasFallback : Bool)
    (cb : CircuitBreaker) (now₁ tI now₂ : Nat) (success : Bool)
    (hState : cb.state = .closed) (hExp : cb.expiry = none)
    (hNotPast : ¬ tI + cb.timeout < now₂) :
    (setState cb .opened tI).generation ≠ cb.generation ∧
    (setState cb .opened tI).counts = Counts.clear ∧
    execute readyToTrip hasFallback cb now₁ (fun c => setState c .opened tI) success now₂ =
      .ok ({ setState cb .opened tI with counts := { Counts.clear with requests := 1 } },
           .callResult success) := by
  rcases cb with ⟨mr, iv, tmo, st, gen, cts, ex⟩
  simp only [CircuitBreaker.mk.injEq] at hState hExp ⊢
  subst hState; subst hExp
  refine ⟨by simp [setState, newGeneration], by simp [setState, newGeneration], ?_⟩
  simp only [execute, beforeRequest, currentState, afterRequest, setState, newGeneration,
    timeIsZero, timeBefore, Counts.onRequest, Counts.clear, hNotPast]
  simp [hNotPast, Nat.mod_eq_of_lt]

/-- C4 amended witness: the default breaker, with the mid-call trip at
instant 1 and the call completing at instant 2. -/
theorem c4_stale_call_accounting_witness :
    (setState (newCircuitBreaker 0 0 0 0) .opened 1).generation ≠
      (newCircuitBreaker 0 0 0 0).generation ∧
    (setState (newCircuitBreaker 0 0 0 0) .opened 1).counts = Counts.clear ∧
    execute readyToTripDefault false (newCircuitBreaker 0 0 0 0) 1
        (fun c => setState c .opened 1) true 2 =
      .ok ({ setState (newCircuitBreaker 0 0 0 0) .opened 1 with
             counts := { Counts.clear with requests := 1 } },
           .callResult true) :=
  c4_stale_call_accounting readyToTripDefault false (newCircuitBreaker 0 0 0 0) 1 1 2 true
    rfl rfl (by decide)

/-- C7: when the breaker is Open (timeout not yet elapsed), `Execute`
returns the configured fallback result — or the open-circuit error when
no fallback is configured — without invoking the call (the
`.callResult` path is never taken); but the claim's HalfOpen half
fails: with the breaker HalfOpen and `counts.Requests = 2 >
maxRequests = 1`, `Execute` does not reject the call — it panics in
`currentState` (`default:` branch) before `beforeRequest`'s
too-many-requests check can run, leaving that rejection branch
unreachable. -/
theorem c7_open_rejects_halfopen_panics :
    execute readyToTripDefault true
        { maxRequests := 1, interval := 0, timeout := 20, state := .opened
          generation := 4, counts := Counts.clear, expiry := some 100 } 5 id true 6 =
      .ok ({ maxRequests := 1, interval := 0, timeout := 20, state := .opened
             generation := 4, counts := Counts.clear, expiry := some 100 },
           .fallback .openState) ∧
    execute readyToTripDefault false
        { maxRequests := 1, interval := 0, timeout := 20, state := .opened
          generation := 4, counts := Counts.clear, expiry := some 100 } 5 id true 6 =
      .ok ({ maxRequests := 1, interval := 0, timeout := 20, state := .opened
             generation := 4, counts := Counts.clear, expiry := some 100 },
           .errResult .openState) ∧
    execute readyToTripDefault true
        { maxRequests := 1, interval := 0, timeout := 20, state := .halfOpen
          generation := 4, counts := { Counts.clear with requests := 2 }
          expiry := none } 5 id true 6 = .panic := by
  refine ⟨rfl, rfl, rfl⟩

end Breaker

namespace Rpc

/-- Recomposing the four big-endian bytes of a value below `2^32`
yields the value back. -/
theorem beU32_digits (v : Nat) (h : v < 2 ^ 32) :
    beU32 (v / 2 ^ 24 % 256) (v / 2 ^ 16 % 256) (v / 2 ^ 8 % 256) (v % 256) = v := by
  unfold beU32
  omega

/-- C1: the round-trip `Decode(Encode(x)) == x` fails on the 8-byte
request id. Encoding the request with id 1 (Gob serialization,
identity-behaving compression) writes the full big-endian id
`0,0,0,0,0,0,0,1` at offsets 9–16, but `decodeFrame` — even with a
codec environment that inverts the serializer and compressor exactly —
returns a header whose `RequestId` is 0, because the source parses the
id with `binary.BigEndian.Uint32(headers[9:])`, reading only the four
high bytes at offsets 9–12. -/
theorem c1_decode_encode_drops_low_id_bits :
    invokeEncode serConst7 compIdent 0 0 req1 =
      some [29, 1, 0, 0, 0, 18, 0, 0, 0, 0, 0, 0, 0, 0, 0, 0, 1, 7] ∧
    decodeFrame envRoundTrip [29, 1, 0, 0, 0, 18, 0, 0, 0, 0, 0, 0, 0, 0, 0, 0, 1, 7] =
      .ok { header := { magicNumber := 29, version := 1, fullLength := 18
                        messageType := 0, compressType := 0, serializeType := 0
                        requestId := 0 }
            data := .req req1 } ∧
    req1.requestId = 1 := by
  refine ⟨rfl, by decide, rfl⟩

/-- C5: whenever serialization and compression succeed, `Invoke` and
`Send` emit exactly the layout
`[magic][version][length:4][type][compress][serialize][reqId:8][body]`
with `body = compress(serialize(payload))`, a 17-byte header,
big-endian multi-byte fields, and the 4-byte length field equal to
`17 + len(body)`. -/
theorem c5_encode_layout (ser : MsRpcRequest → Option (List Nat))
    (ser' : MsRpcResponse → Option (List Nat)) (comp : List Nat → Option (List Nat))
    (ct st : Nat) (req : MsRpcRequest) (rsp : MsRpcResponse)
    (sreq srsp breq brsp : List Nat)
    (hser : ser req = some sreq) (hcomp : comp sreq = some breq)
    (hser' : ser' rsp = some srsp) (hcomp' : comp srsp = some brsp)
    (hlen : 17 + breq.length < 2 ^ 32) (hlen' : 17 + brsp.length < 2 ^ 32)
    (hid : req.requestId < 2 ^ 64) (hid' : rsp.requestId < 2 ^ 64) :
    invokeEncode ser comp ct st req =
      some ([magicNumber, version] ++ u32be (17 + breq.length) ++ [msgRequest, ct, st] ++
        u64be req.requestId ++ breq) ∧
    sendEncode ser' comp rsp =
      some ([magicNumber, version] ++ u32be (17 + brsp.length) ++
        [msgResponse, rsp.compressType, rsp.serializeType] ++ u64be rsp.requestId ++ brsp) ∧
    ([magicNumber, version] ++ u32be (17 + breq.length) ++ [msgRequest, ct, st] ++
        u64be req.requestId).length = 17 := by
  refine ⟨?_, ?_, by simp [u32be, u64be]⟩
  · simp only [invokeEncode, putByte, putU32be, putU64be, hser, hcomp]
    simp [List.replicate, List.set, u32be, u64be]
    omega
  · simp only [sendEncode, putByte, putU32be, putU64be, hser', hcomp']
    simp [List.replicate, List.set, u32be, u64be]
    omega

/-- C5 witness: the layout theorem applied to a concrete request and
response under the constant serializer and identity compressor. -/
theorem c5_encode_layout_witness :
    invokeEncode serConst7 compIdent 0 0 req1 =
      some ([magicNumber, version] ++ u32be 18 ++ [msgRequest, 0, 0] ++ u64be 1 ++ [7]) ∧
    sendEncode (fun _ => some [7]) compIdent
        { requestId := 1, code := 200, msg := "", compressType := 0
          serializeType := 0, data := none } =
      some ([magicNumber, version] ++ u32be 18 ++ [msgResponse, 0, 0] ++ u64be 1 ++ [7]) ∧
    ([magicNumber, version] ++ u32be 18 ++ [msgRequest, 0, 0] ++ u64be 1).length = 17 := by
  have h := c5_encode_layout serConst7 (fun _ => some [7]) compIdent 0 0 req1
    { requestId := 1, code := 200, msg := "", compressType := 0
      serializeType := 0, data := none }
    [7] [7] [7] [7] rfl rfl rfl rfl (by decide) (by decide) (by decide) (by decide)
  simpa [req1] using h

/-- C6: any stream of at least a full header whose first byte is not
the magic sentinel is rejected by `decodeFrame` with the protocol
error `"magic number error"`, whatever the remaining bytes hold. -/
theorem c6_bad_magic_rejected (env : CodecEnv) (stream : List Nat)
    (hlen : 17 ≤ stream.length) (hmagic : stream.getD 0 0 ≠ magicNumber) :
    decodeFrame env stream = .err "magic number error" := by
  obtain _ | ⟨b0, s⟩ := stream
  · simp at hlen
  obtain _ | ⟨b1, s⟩ := s
  · simp at hlen
  obtain _ | ⟨b2, s⟩ := s
  · simp only [List.length_cons, List.length_nil] at hlen; omega
  obtain _ | ⟨b3, s⟩ := s
  · simp only [List.length_cons, List.length_nil] at hlen; omega
  obtain _ | ⟨b4, s⟩ := s
  · simp only [List.length_cons, List.length_nil] at hlen; omega
  obtain _ | ⟨b5, s⟩ := s
  · simp only [List.length_cons, List.length_nil] at hlen; omega
  obtain _ | ⟨b6, s⟩ := s
  · simp only [List.length_cons, List.length_nil] at hlen; omega
  obtain _ | ⟨b7, s⟩ := s
  · simp only [List.length_cons, List.length_nil] at hlen; omega
  obtain _ | ⟨b8, s⟩ := s
  · simp only [List.length_cons, List.length_nil] at hlen; omega
  obtain _ | ⟨b9, s⟩ := s
  · simp only [List.length_cons, List.length_nil] at hlen; omega
  obtain _ | ⟨b10, s⟩ := s
  · simp only [List.length_cons, List.length_nil] at hlen; omega
  obtain _ | ⟨b11, s⟩ := s
  · simp only [List.length_cons, List.length_nil] at hlen; omega
  obtain _ | ⟨b12, s⟩ := s
  · simp only [List.length_cons, List.length_nil] at hlen; omega
  obtain _ | ⟨b13, s⟩ := s
  · simp only [List.length_cons, List.length_nil] at hlen; omega
  obtain _ | ⟨b14, s⟩ := s
  · simp only [List.length_cons, List.length_nil] at hlen; omega
  obtain _ | ⟨b15, s⟩ := s
  · simp only [List.length_cons, List.length_nil] at hlen; omega
  obtain _ | ⟨b16, s⟩ := s
  · simp only [List.length_cons, List.length_nil] at hlen; omega
  simp only [List.getD_cons_zero] at hmagic
  simp [decodeFrame, hmagic]

/-- C6 witness: a 17-byte stream starting with `0x00`. -/
theorem c6_bad_magic_rejected_witness :
    decodeFrame envRoundTrip (0 :: List.replicate 16 9) = .err "magic number error" :=
  c6_bad_magic_rejected envRoundTrip (0 :: List.replicate 16 9) (by decide) (by decide)

/-- C10: on any body that is not a valid gzip stream — any input on
which `gzip.NewReader` errors, such as the empty slice —
`GzipCompress.UnCompress` panics (the deferred `Close` on the nil
reader dereferences a nil pointer) instead of returning the error, and
consequently `decodeFrame` panics on any well-formed frame carrying
such a body rather than returning a decode error. -/
theorem c10_uncompress_panics (env : CodecEnv) (body : List Nat)
    (hgz : env.gzip.newReader body = none) (hlen : body.length + 17 < 2 ^ 31) :
    gzUnCompress env.gzip body = .panic ∧
    decodeFrame env (frameBytes msgRequest 0 0 1 body) = .panic := by
  constructor
  · simp [gzUnCompress, hgz]
  · have h32 : 17 + body.length < 2 ^ 32 := by omega
    have hbe : beU32 ((17 + body.length) / 2 ^ 24 % 256) ((17 + body.length) / 2 ^ 16 % 256)
        ((17 + body.length) / 2 ^ 8 % 256) ((17 + body.length) % 256) = 17 + body.length :=
      beU32_digits _ h32
    have hlt : (17 : Nat) + body.length < 2 ^ 31 := by omega
    have ht : toInt32 (17 + body.length) = 17 + (body.length : Int) := by
      unfold toInt32
      rw [if_pos hlt]
      push_cast
      ring
    have hsub : 17 + (body.length : Int) - 17 = (body.length : Int) := by ring
    have hneg : ¬ (17 + (body.length : Int) - 17 < 0) := by omega
    simp only [frameBytes, u32be, u64be, List.cons_append, List.nil_append]
    simp only [decodeFrame, hbe, ht, loadCompressEnv, gzUnCompress, hgz]
    rw [if_neg hneg]
    simp [hsub, List.take_length, hgz, gzUnCompress, loadCompressEnv]

/-- C10 witness: the empty body (not a gzip stream: `gzip.NewReader`
fails at once) inside an otherwise well-formed frame. -/
theorem c10_uncompress_panics_witness :
    gzUnCompress { newReader := fun _ => none } [] = .panic ∧
    decodeFrame { envRoundTrip with gzip := { newReader := fun _ => none } }
      (frameBytes msgRequest 0 0 1 []) = .panic :=
  c10_uncompress_panics { envRoundTrip with gzip := { newReader := fun _ => none } } []
    rfl (by decide)

/-- C9: dispatching a well-formed request that names a service absent
from the server's `serviceMap` produces the fresh response with
code 500 and message `"no service found"`, identically for every
method table, and invokes no method. -/
theorem c9_unknown_service_500 (services : String → Option Service) (hdr : Header)
    (req : MsRpcRequest) (habsent : services req.serviceName = none) :
    readHandleDispatch services hdr req =
      ({ requestId := 0, code := 500, msg := "no service found"
         compressType := 0, serializeType := 0, data := none }, false) := by
  simp [readHandleDispatch, habsent]

/-- C9 witness: the empty service table and the concrete request
`req1`. -/
theorem c9_unknown_service_500_witness :
    readHandleDispatch (fun _ => none)
        { magicNumber := 29, version := 1, fullLength := 18, messageType := 0
          compressType := 0, serializeType := 0, requestId := 1 } req1 =
      ({ requestId := 0, code := 500, msg := "no service found"
         compressType := 0, serializeType := 0, data := none }, false) :=
  c9_unknown_service_500 (fun _ => none)
    { magicNumber := 29, version := 1, fullLength := 18, messageType := 0
      compressType := 0, serializeType := 0, requestId := 1 } req1 rfl

end Rpc

namespace Pool

/-- C2: the claim `running ≤ cap` fails on the code. On a fresh pool of
capacity 1, a single `Submit` — well within capacity — already leaves
`running = 2 > cap = 1` (and `Free() = -1`), because `Worker.run()`
increments the counter when the worker is started and `Submit`
increments it a second time for the same task; `PutWorker` never
decrements it. (`Free() == cap - running` itself holds by the very
definition of `Free`.) -/
theorem c2_running_exceeds_cap :
    newPool 1 = .ok { cap := 1, running := 0, idle := 0, releaseLen := 0, onceDone := false } ∧
    submit { cap := 1, running := 0, idle := 0, releaseLen := 0, onceDone := false } =
      (.ok, { cap := 1, running := 2, idle := 0, releaseLen := 0, onceDone := false }) ∧
    ¬ (runningCount { cap := 1, running := 2, idle := 0, releaseLen := 0, onceDone := false } ≤
        (1 : Int)) ∧
    free { cap := 1, running := 2, idle := 0, releaseLen := 0, onceDone := false } = -1 := by
  refine ⟨rfl, rfl, by decide, rfl⟩

/-- C8: after `Release()`, every subsequent `Submit` fails with the
`ErrorHasClosed` (`PoolClosed`) error, leaving the pool state unchanged
and never delivering the task, and a second `Release()` is a no-op on
the pool state (the `sync.Once` guard, so no double close of the
channel and no panic). The hypothesis excludes only states whose
`sync.Once` already fired while the release channel is empty — states
reachable solely through `Restart`, which re-opens the pool. -/
theorem c8_release_then_submit_fails (p : PoolState)
    (h : p.onceDone = false ∨ 0 < p.releaseLen) :
    (submit (release p)).1 = .closedErr ∧
    (submit (release p)).2 = release p ∧
    release (release p) = release p := by
  rcases p with ⟨cap, running, idle, releaseLen, onceDone⟩
  cases onceDone
  · simp [release, submit]
  · rcases h with h | h
    · simp at h
    · simp only [release, if_pos] at h ⊢
      simp [submit, h]

/-- C8 witness: a fresh pool of capacity 1. -/
theorem c8_release_then_submit_fails_witness :
    (submit (release { cap := 1, running := 0, idle := 0, releaseLen := 0
                       onceDone := false })).1 = .closedErr ∧
    (submit (release { cap := 1, running := 0, idle := 0, releaseLen := 0
                       onceDone := false })).2 =
      release { cap := 1, running := 0, idle := 0, releaseLen := 0, onceDone := false } ∧
    release (release { cap := 1, running := 0, idle := 0, releaseLen := 0
                       onceDone := false }) =
      release { cap := 1, running := 0, idle := 0, releaseLen := 0, onceDone := false } :=
  c8_release_then_submit_fails
    { cap := 1, running := 0, idle := 0, releaseLen := 0, onceDone := false }
    (Or.inl rfl)

end Pool

end CloudWeb
